import Mathlib

/-!
Shallow embedding of the Auto Paper Digest status-tracking store
(`src/apd/db.py`), its digest statistics (`src/apd/digest.py`) and the
store effect of the weekly scraper (`src/apd/hf_fetcher.py`).

The SQLite table `papers` is modelled as a list of `Paper` rows; each SQL
statement is modelled by its denotation on that list (UPDATE = map over
rows matching the WHERE clause, INSERT = append, SELECT = filter and sort).
Python `Optional` arguments become `Option`; Python truthiness tests on
strings and integers are modelled explicitly where the source uses them.
-/

namespace APD

/-- Status values of the pipeline ladder. Modelled from the spec: the
`Status` enumeration lives in `src/apd/config.py`, which is not part of the
provided sources; the spec (§3) and every use in `db.py` give its members as
NEW, PDF_OK, NBLM_OK, VIDEO_OK, ERROR. -/
inductive Status where
  | NEW
  | PDF_OK
  | NBLM_OK
  | VIDEO_OK
  | ERROR
  deriving DecidableEq, Repr

/-- One row of the `papers` table (`db.py`, dataclass `Paper` /
`CREATE TABLE papers`). -/
structure Paper where
  paper_id : String
  week_id : String
  title : Option String := none
  hf_url : Option String := none
  pdf_url : Option String := none
  pdf_path : Option String := none
  pdf_sha256 : Option String := none
  notebooklm_note_name : Option String := none
  video_path : Option String := none
  slides_path : Option String := none
  summary : Option String := none
  status : Status := Status.NEW
  retry_count : Nat := 0
  last_error : Option String := none
  updated_at : Option String := none
  deriving DecidableEq, Repr

/-- The persisted state: the rows of the `papers` table. -/
abbrev DB := List Paper

/-- The character pattern of the regex `^\d{4}-\d{2}$`. -/
def weekFormatChars : List Char → Bool
  | [a, b, c, d, e, f, g] =>
      a.isDigit && b.isDigit && c.isDigit && d.isDigit &&
      e == '-' && f.isDigit && g.isDigit
  | _ => false

/-- `_is_week_format` (`db.py` 21-25): does `period_id` match the regex
`^\d{4}-\d{2}$`? -/
def is_week_format (period_id : String) : Bool :=
  weekFormatChars period_id.toList

/-- Is a year a Gregorian leap year (as `datetime` reckons them)? -/
def isLeap (y : Nat) : Bool :=
  (y % 4 == 0 && y % 100 != 0) || y % 400 == 0

/-- Days from 0000-03-01 (day 0) to the given civil date; the standard
shifted-epoch (March-based) day-count used to model `datetime` arithmetic. -/
def daysFromCivil (y m d : Nat) : Nat :=
  let y2 := if m ≤ 2 then y - 1 else y
  let era := y2 / 400
  let yoe := y2 % 400
  let mp := if m > 2 then m - 3 else m + 9
  let doy := (153 * mp + 2) / 5 + d - 1
  let doe := yoe * 365 + yoe / 4 - yoe / 100 + doy
  era * 146097 + doe

/-- Inverse of `daysFromCivil`: the civil date `(year, month, day)` of a
day count since 0000-03-01. -/
def civilFromDays (z : Nat) : Nat × Nat × Nat :=
  let era := z / 146097
  let doe := z % 146097
  let yoe := (doe - doe / 1460 + doe / 36524 - doe / 146096) / 365
  let y := yoe + era * 400
  let doy := doe - (365 * yoe + yoe / 4 - yoe / 100)
  let mp := (5 * doy + 2) / 153
  let d := doy - (153 * mp + 2) / 5 + 1
  let m := if mp < 10 then mp + 3 else mp - 9
  (if m ≤ 2 then y + 1 else y, m, d)

/-- Python `datetime.weekday()` (Monday = 0) of a `daysFromCivil` day
count; day 0 (0000-03-01 proleptic) is a Wednesday. -/
def weekdayOfDays (z : Nat) : Nat := (z + 2) % 7

/-- Zero-pad a number below 100 to two digits, as `strftime` `%m`/`%d` do. -/
def pad2 (n : Nat) : String :=
  if n < 10 then "0" ++ toString n else toString n

/-- `strftime("%Y-%m-%d")` for a civil date with a four-digit year. -/
def formatDate (y m d : Nat) : String :=
  toString y ++ "-" ++ pad2 m ++ "-" ++ pad2 d

/-- `str.split("-")` on a character list: maximal chunks separated at
each dash (structural recursion so that concrete instances evaluate). -/
def splitDashChars (acc : List Char) : List Char → List (List Char)
  | [] => [acc.reverse]
  | c :: rest =>
      if c = '-' then acc.reverse :: splitDashChars [] rest
      else splitDashChars (c :: acc) rest

/-- The value of a digit string, as Python `int` reads one. -/
def digitsToNat (cs : List Char) : Nat :=
  cs.foldl (fun n c => n * 10 + (c.toNat - 48)) 0

/-- Python `int(s)` for a chunk: defined (here, `some`) exactly on
non-empty all-digit chunks, which is the only way `_get_dates_for_week`
reaches it through `_build_week_id_clause`'s week-format check. -/
def parseNat (cs : List Char) : Option Nat :=
  if cs ≠ [] ∧ cs.all (fun c => c.isDigit) then some (digitsToNat cs)
  else none

/-- `_get_dates_for_week` (`db.py` 28-55): the seven date strings, Monday
to Sunday, of ISO week `week` of `year`, computed exactly as the source
does: the Monday of week 1 is January 4 minus its weekday, and week `w`
starts `w - 1` weeks later. -/
def get_dates_for_week (week_id : String) : List String :=
  let parts := splitDashChars [] week_id.toList
  if parts.length ≠ 2 then []
  else
    let year := (parseNat (parts.getD 0 [])).getD 0
    let week := (parseNat (parts.getD 1 [])).getD 0
    let jan4 := daysFromCivil year 1 4
    let startOfWeek1 := jan4 - weekdayOfDays jan4
    let monday : Int := (startOfWeek1 : Int) + 7 * ((week : Int) - 1)
    (List.range 7).map (fun i =>
      let c := civilFromDays (monday + (i : Int)).toNat
      formatDate c.1 c.2.1 c.2.2)

/-- Denotation of the SQL clause returned by `_build_week_id_clause`
(`db.py` 58-79) on a row with stored period `stored`: for a week-shaped
identifier the clause is `week_id IN (week_id, d1, ..., d7)`, otherwise
`week_id = ?`. -/
def week_clause_matches (week_id stored : String) : Bool :=
  if is_week_format week_id then
    ((week_id :: get_dates_for_week week_id).contains stored)
  else
    stored == week_id

/-- `get_paper` (`db.py` 190-207): `SELECT * FROM papers WHERE paper_id = ?`
returning the first matching row. -/
def get_paper (db : DB) (paper_id : String) : Option Paper :=
  List.find? (fun p => p.paper_id == paper_id) db

/-- Merge one column in `upsert_paper`'s UPDATE branch: the column is set
exactly when the argument is not `None`. -/
def pick (new old : Option String) : Option String :=
  match new with
  | some v => some v
  | none => old

/-- The SET list of `upsert_paper`'s UPDATE branch (`db.py` 245-289)
applied to one row: each optional column whose argument is non-`None` is
overwritten, plus `updated_at`; `week_id` and `retry_count` appear in no
`updates` entry. -/
def apply_update
    (title hf_url pdf_url pdf_path pdf_sha256 notebooklm_note_name
     video_path slides_path summary : Option String)
    (status : Option Status) (last_error : Option String)
    (now : String) (p : Paper) : Paper :=
  { p with
    title := pick title p.title
    hf_url := pick hf_url p.hf_url
    pdf_url := pick pdf_url p.pdf_url
    pdf_path := pick pdf_path p.pdf_path
    pdf_sha256 := pick pdf_sha256 p.pdf_sha256
    notebooklm_note_name := pick notebooklm_note_name p.notebooklm_note_name
    video_path := pick video_path p.video_path
    slides_path := pick slides_path p.slides_path
    summary := pick summary p.summary
    status := status.getD p.status
    last_error := pick last_error p.last_error
    updated_at := some now }

/-- `upsert_paper` (`db.py` 210-307). If a row with `paper_id` exists, an
UPDATE applies `apply_update` to the rows matching `WHERE paper_id = ?`.
Otherwise an INSERT creates the row with `status or Status.NEW`,
`retry_count` 0 and `updated_at = now`. `now` stands for `now_iso()`. -/
def upsert_paper (db : DB) (paper_id week_id : String)
    (title hf_url pdf_url pdf_path pdf_sha256 notebooklm_note_name
     video_path slides_path summary : Option String)
    (status : Option Status) (last_error : Option String)
    (now : String) : DB :=
  match get_paper db paper_id with
  | some _ =>
      db.map (fun p =>
        if p.paper_id == paper_id then
          apply_update title hf_url pdf_url pdf_path pdf_sha256
            notebooklm_note_name video_path slides_path summary
            status last_error now p
        else p)
  | none =>
      db ++ [{ paper_id := paper_id
               week_id := week_id
               title := title
               hf_url := hf_url
               pdf_url := pdf_url
               pdf_path := pdf_path
               pdf_sha256 := pdf_sha256
               notebooklm_note_name := notebooklm_note_name
               video_path := video_path
               slides_path := slides_path
               summary := summary
               status := status.getD Status.NEW
               retry_count := 0
               last_error := last_error
               updated_at := some now }]

/-- `update_status` (`db.py` 311-352): UPDATE setting `status`,
`last_error` (to the `error` argument, `None` by default) and `updated_at`,
incrementing `retry_count` exactly when `increment_retry` is true. A
missing `paper_id` updates no row. -/
def update_status (db : DB) (paper_id : String) (status : Status)
    (error : Option String) (increment_retry : Bool) (now : String) : DB :=
  db.map (fun p =>
    if p.paper_id == paper_id then
      { p with
        status := status
        last_error := error
        retry_count := if increment_retry then p.retry_count + 1 else p.retry_count
        updated_at := some now }
    else p)

/-- The row filter of `count_papers` (`db.py` 397-423): Python's
`if week_id:` and `if status:` add each clause only for a truthy argument
(a non-empty string; every `Status` member is a non-empty string). -/
def count_filter (week_id : Option String) (status : Option Status)
    (p : Paper) : Bool :=
  (match week_id with
   | some w => if w == "" then true else week_clause_matches w p.week_id
   | none => true) &&
  (match status with
   | some s => p.status == s
   | none => true)

/-- `count_papers` (`db.py` 397-423): `SELECT COUNT(*)` under the optional
week and status filters. -/
def count_papers (db : DB) (week_id : Option String)
    (status : Option Status) : Nat :=
  (db.filter (fun p => count_filter week_id status p)).length

/-- The `status_order` ladder of `get_papers_for_processing`
(`db.py` 445). -/
def status_order : List Status :=
  [Status.NEW, Status.PDF_OK, Status.NBLM_OK, Status.VIDEO_OK]

/-- `get_papers_for_processing` (`db.py` 426-477): for a ladder target,
select the rows of the period whose status lies in the ladder prefix
before the target and whose `retry_count` is below `max_retries`, ordered
by `paper_id` (`ORDER BY paper_id` on the primary key); `LIMIT` is added
only for a truthy (non-zero) `limit`. A target outside the ladder returns
`[]`. -/
def get_papers_for_processing (db : DB) (week_id : String)
    (target_status : Status) (max_retries : Nat) (limit : Option Nat) :
    List Paper :=
  if target_status ∈ status_order then
    let target_idx := status_order.indexOf target_status
    let needed := status_order.take target_idx
    let rows :=
      (db.filter (fun p =>
        week_clause_matches week_id p.week_id &&
        needed.contains p.status &&
        decide (p.retry_count < max_retries))).mergeSort
        (fun a b => a.paper_id ≤ b.paper_id)
    match limit with
    | some n => if n == 0 then rows else rows.take n
    | none => rows
  else []

/-- The `stats` object of the digest JSON built by `generate_digest`
(`digest.py` 63-77): each entry is a `count_papers` call. -/
structure DigestStats where
  total : Nat
  video_ok : Nat
  pdf_ok : Nat
  new : Nat
  error : Nat
  deriving DecidableEq, Repr

/-- `generate_digest`'s `stats` (`digest.py` 70-76). -/
def digest_stats (db : DB) (week_id : String) : DigestStats :=
  { total := count_papers db (some week_id) none
    video_ok := count_papers db (some week_id) (some Status.VIDEO_OK)
    pdf_ok := count_papers db (some week_id) (some Status.PDF_OK)
    new := count_papers db (some week_id) (some Status.NEW)
    error := count_papers db (some week_id) (some Status.ERROR) }

/-- A paper stub produced by the scraper (`hf_fetcher.py`): the dict with
keys `paper_id`, `title`, `hf_url`, `pdf_url`. -/
structure ScrapedPaper where
  paper_id : String
  title : String
  hf_url : String
  pdf_url : String
  deriving DecidableEq, Repr

/-- Python truthiness of `max_papers: Optional[int]`: `None` and `0` are
falsy. -/
def natTruthy : Option Nat → Bool
  | none => false
  | some n => n != 0

/-- The per-paper loop of `fetch_weekly_papers` (`hf_fetcher.py` 239-265):
skip identifiers already seen in this run; skip (without any write)
identifiers already in the database while still counting them into
`all_papers`; otherwise upsert a NEW stub, count it, and stop when the
count reaches a truthy `max_papers`. Returns the database, the `seen_ids`
set and `len(all_papers)`. -/
def fetch_loop (week_id now : String) (max_papers : Option Nat) :
    DB → List String → Nat → List ScrapedPaper → DB × List String × Nat
  | db, seen, count, [] => (db, seen, count)
  | db, seen, count, sp :: rest =>
    if seen.contains sp.paper_id then
      fetch_loop week_id now max_papers db seen count rest
    else
      let seen2 := sp.paper_id :: seen
      match get_paper db sp.paper_id with
      | some _ => fetch_loop week_id now max_papers db seen2 (count + 1) rest
      | none =>
        let db2 := upsert_paper db sp.paper_id week_id
          (some sp.title) (some sp.hf_url) (some sp.pdf_url)
          none none none none none none none none now
        if natTruthy max_papers && decide (max_papers.getD 0 ≤ count + 1) then
          (db2, seen2, count + 1)
        else
          fetch_loop week_id now max_papers db2 seen2 (count + 1) rest

/-- The store effect of `fetch_weekly_papers` (`hf_fetcher.py` 212-311)
when the week-URL scrape yields the stub list `scraped` (the non-empty
branch; the per-day fallback runs the identical per-paper loop over the
days' stubs in sequence). -/
def fetch_weekly_papers_db (db : DB) (week_id : String)
    (scraped : List ScrapedPaper) (max_papers : Option Nat)
    (now : String) : DB :=
  (fetch_loop week_id now max_papers db [] 0 scraped).1

/-- `get_connection` (`db.py` 110-128) as a unit of work over the
persisted state: the body runs against the state; `commit` persists its
result on success, and on any exception the transaction is rolled back
(the persisted state is unchanged) and the exception re-raised. Returns
the unit's outcome and the persisted state afterwards. -/
def run_unit {ε : Type} (persisted : DB) (body : DB → Except ε DB) :
    Except ε DB × DB :=
  match body persisted with
  | Except.ok s => (Except.ok s, s)
  | Except.error e => (Except.error e, persisted)

/-- Position of a status on the ladder; `none` for ERROR. Spec-side
notion used to state claims about "strictly precedes in the ladder". -/
def ladderIdx : Status → Option Nat
  | Status.NEW => some 0
  | Status.PDF_OK => some 1
  | Status.NBLM_OK => some 2
  | Status.VIDEO_OK => some 3
  | Status.ERROR => none

/-- `s` strictly precedes `t` on the ladder NEW, PDF_OK, NBLM_OK,
VIDEO_OK (ERROR precedes nothing and nothing precedes it). -/
def statusPrecedes (s t : Status) : Bool :=
  match ladderIdx s, ladderIdx t with
  | some i, some j => i < j
  | _, _ => false

/-- The character pattern of the date regex `^\d{4}-\d{2}-\d{2}$`. -/
def dateFormatChars : List Char → Bool
  | [a, b, c, d, e, f, g, h, i, j] =>
      a.isDigit && b.isDigit && c.isDigit && d.isDigit &&
      e == '-' && f.isDigit && g.isDigit &&
      h == '-' && i.isDigit && j.isDigit
  | _ => false

/-- A date-shaped identifier: matches `^\d{4}-\d{2}-\d{2}$`, the date
format named in `_is_week_format`'s documentation. -/
def isDateShaped (s : String) : Bool :=
  dateFormatChars s.toList

/-- The rows of the table have pairwise distinct primary keys. -/
def keysUnique (db : DB) : Prop :=
  db.Pairwise (fun a b => a.paper_id ≠ b.paper_id)

/-- A stored row used by concrete witnesses: status NEW, a recorded error
message, some fields populated and some empty. -/
def samplePaper : Paper :=
  { paper_id := "2401.00001", week_id := "2026-01",
    title := some "Sample Paper", hf_url := some "https://example.org/p",
    last_error := some "old failure", status := Status.NEW, retry_count := 0 }

/-- A stored row that has reached the end of the ladder. -/
def sampleVideoPaper : Paper :=
  { paper_id := "2401.00002", week_id := "2026-01",
    status := Status.VIDEO_OK, retry_count := 0 }

/-- A stored row in the ERROR state with retry budget left. -/
def sampleErrorPaper : Paper :=
  { paper_id := "2401.00003", week_id := "2026-01",
    status := Status.ERROR, retry_count := 0 }

-- ===========================================================================
-- Helper lemmas
-- ===========================================================================

theorem get_paper_map (db : DB) (pid : String) (f : Paper → Paper)
    (hf : ∀ p, (f p).paper_id = p.paper_id) :
    get_paper (db.map f) pid = (get_paper db pid).map f := by
  unfold get_paper
  have hpred : ((fun p : Paper => p.paper_id == pid) ∘ f)
      = (fun p : Paper => p.paper_id == pid) := by
    funext q
    simp [Function.comp, hf]
  rw [List.find?_map, hpred]

theorem get_paper_update_status (db : DB) (pid : String) (s : Status)
    (e : Option String) (inc : Bool) (now : String) (old : Paper)
    (hold : get_paper db pid = some old) :
    get_paper (update_status db pid s e inc now) pid
      = some { old with
                 status := s, last_error := e,
                 retry_count := if inc then old.retry_count + 1 else old.retry_count,
                 updated_at := some now } := by
  unfold update_status
  rw [get_paper_map, hold]
  · have hold2 : List.find? (fun p => p.paper_id == pid) db = some old := hold
    have heq : old.paper_id = pid := by simpa using List.find?_some hold2
    simp [heq]
  · intro p
    by_cases h : p.paper_id == pid <;> simp [h]

theorem get_paper_upsert_existing (db : DB) (pid wid : String)
    (t h u pp sha nb vp sl su : Option String) (st : Option Status)
    (le : Option String) (now : String) (old : Paper)
    (hold : get_paper db pid = some old) :
    get_paper (upsert_paper db pid wid t h u pp sha nb vp sl su st le now) pid
      = some (apply_update t h u pp sha nb vp sl su st le now old) := by
  unfold upsert_paper
  rw [hold]
  rw [get_paper_map, hold]
  · have hold2 : List.find? (fun p => p.paper_id == pid) db = some old := hold
    have heq : old.paper_id = pid := by simpa using List.find?_some hold2
    simp [heq]
  · intro p
    by_cases hc : p.paper_id == pid <;> simp [hc, apply_update]

theorem get_paper_upsert_new (db : DB) (pid wid : String)
    (t h u pp sha nb vp sl su : Option String) (st : Option Status)
    (le : Option String) (now : String)
    (hnone : get_paper db pid = none) :
    get_paper (upsert_paper db pid wid t h u pp sha nb vp sl su st le now) pid
      = some { paper_id := pid, week_id := wid, title := t, hf_url := h,
               pdf_url := u, pdf_path := pp, pdf_sha256 := sha,
               notebooklm_note_name := nb, video_path := vp,
               slides_path := sl, summary := su,
               status := st.getD Status.NEW, retry_count := 0,
               last_error := le, updated_at := some now } := by
  unfold upsert_paper
  rw [hnone]
  unfold get_paper at hnone ⊢
  rw [List.find?_append, hnone]
  simp

theorem upsert_new_eq_append (db : DB) (pid wid : String)
    (t h u pp sha nb vp sl su : Option String) (st : Option Status)
    (le : Option String) (now : String)
    (hnone : get_paper db pid = none) :
    upsert_paper db pid wid t h u pp sha nb vp sl su st le now
      = db ++ [{ paper_id := pid, week_id := wid, title := t, hf_url := h,
                 pdf_url := u, pdf_path := pp, pdf_sha256 := sha,
                 notebooklm_note_name := nb, video_path := vp,
                 slides_path := sl, summary := su,
                 status := st.getD Status.NEW, retry_count := 0,
                 last_error := le, updated_at := some now }] := by
  unfold upsert_paper
  rw [hnone]

theorem get_paper_append_of_some (db l : DB) (pid : String) (q : Paper)
    (hq : get_paper db pid = some q) :
    get_paper (db ++ l) pid = some q := by
  unfold get_paper at hq ⊢
  rw [List.find?_append, hq]
  rfl

-- ===========================================================================
-- C8: unit-of-work atomicity
-- ===========================================================================

/-- C8: each data operation's unit of work is atomic: the connection
commits (the body's resulting state is persisted) exactly when the body
completes without exception, rolls back (the persisted state is unchanged)
when any exception is raised within it, and the exception propagates to
the caller. -/
theorem C8_unit_atomicity {ε : Type} (db : DB) (body : DB → Except ε DB) :
    (∀ s, body db = Except.ok s → run_unit db body = (Except.ok s, s)) ∧
    (∀ e, body db = Except.error e → run_unit db body = (Except.error e, db)) := by
  constructor <;> intro x hx <;> simp [run_unit, hx]

theorem C8_witness :
    run_unit ([samplePaper] : DB) (fun _ => Except.error "disk full")
      = (Except.error "disk full", ([samplePaper] : DB)) :=
  (C8_unit_atomicity [samplePaper] (fun _ => Except.error "disk full")).2
    "disk full" rfl

-- ===========================================================================
-- C9: update_status unconditionally overwrites last_error
-- ===========================================================================

/-- C9: `update_status` with no error argument sets `last_error` to null
for every existing paper, erasing any previously recorded error message,
even with `increment_retry` false and only the status changing (the
resulting row differs from the old one exactly in `status`, `last_error`
and `updated_at`). -/
theorem C9_update_status_overwrites_error (db : DB) (pid : String)
    (s : Status) (now : String) (old : Paper)
    (hold : get_paper db pid = some old) :
    get_paper (update_status db pid s none false now) pid
      = some { old with
                 status := s, last_error := none, updated_at := some now } := by
  have h := get_paper_update_status db pid s none false now old hold
  simpa using h

theorem C9_witness :
    get_paper (update_status [samplePaper] "2401.00001" Status.PDF_OK none
        false "2026-01-05T00:00:00") "2401.00001"
      = some { samplePaper with
                 status := Status.PDF_OK, last_error := none,
                 updated_at := some "2026-01-05T00:00:00" } :=
  C9_update_status_overwrites_error [samplePaper] "2401.00001" Status.PDF_OK
    "2026-01-05T00:00:00" samplePaper rfl

-- ===========================================================================
-- C10: upsert_paper never modifies week_id or retry_count of an existing row
-- ===========================================================================

/-- C10: `upsert_paper` on an existing `paper_id` never modifies `week_id`
or `retry_count`: whatever `week_id` is passed, the stored values after the
call equal their values before it. -/
theorem C10_upsert_preserves_week_and_retry (db : DB) (pid wid : String)
    (t h u pp sha nb vp sl su : Option String) (st : Option Status)
    (le2 : Option String) (now : String) (old : Paper)
    (hold : get_paper db pid = some old) :
    (get_paper (upsert_paper db pid wid t h u pp sha nb vp sl su st le2 now)
        pid).map Paper.week_id = some old.week_id
    ∧ (get_paper (upsert_paper db pid wid t h u pp sha nb vp sl su st le2 now)
        pid).map Paper.retry_count = some old.retry_count := by
  rw [get_paper_upsert_existing db pid wid t h u pp sha nb vp sl su st le2
    now old hold]
  exact ⟨rfl, rfl⟩

theorem C10_witness :
    (get_paper (upsert_paper [samplePaper] "2401.00001" "2026-09"
        (some "New Title") none none none none none none none none
        (some Status.PDF_OK) none "t1") "2401.00001").map Paper.week_id
      = some samplePaper.week_id
    ∧ (get_paper (upsert_paper [samplePaper] "2401.00001" "2026-09"
        (some "New Title") none none none none none none none none
        (some Status.PDF_OK) none "t1") "2401.00001").map Paper.retry_count
      = some samplePaper.retry_count :=
  C10_upsert_preserves_week_and_retry [samplePaper] "2401.00001" "2026-09"
    (some "New Title") none none none none none none none none
    (some Status.PDF_OK) none "t1" samplePaper rfl

-- ===========================================================================
-- C5: the store does not enforce the monotonic status ladder (corrected)
-- ===========================================================================

/-- C5 counterexample: a single `update_status` call moves a stored paper
from VIDEO_OK (the last ladder status) back to NEW (the first), so the
store does not preserve a monotonic status ladder under arbitrary store
operations. -/
theorem C5_counterexample :
    sampleVideoPaper.status = Status.VIDEO_OK
    ∧ statusPrecedes Status.NEW Status.VIDEO_OK = true
    ∧ (get_paper (update_status [sampleVideoPaper] "2401.00002" Status.NEW
        none false "t1") "2401.00002").map Paper.status = some Status.NEW := by
  refine ⟨rfl, rfl, ?_⟩
  decide

/-- C5 amended: the store itself enforces no ladder: `update_status` sets
the stored status to exactly its argument, and `upsert_paper` on an
existing row sets it to any non-`None` supplied value; monotonicity is a
discipline of the callers, not an invariant of the store. -/
theorem C5_status_overwritten_unconditionally (db : DB) (pid wid : String)
    (s st : Status) (e : Option String) (inc : Bool) (now : String)
    (t h u pp sha nb vp sl su le2 : Option String) (now2 : String)
    (old : Paper) (hold : get_paper db pid = some old) :
    (get_paper (update_status db pid s e inc now) pid).map Paper.status
      = some s
    ∧ (get_paper (upsert_paper db pid wid t h u pp sha nb vp sl su (some st)
        le2 now2) pid).map Paper.status = some st := by
  constructor
  · rw [get_paper_update_status db pid s e inc now old hold]
    rfl
  · rw [get_paper_upsert_existing db pid wid t h u pp sha nb vp sl su
      (some st) le2 now2 old hold]
    rfl

theorem C5_witness :
    (get_paper (update_status [sampleVideoPaper] "2401.00002" Status.NEW none
        false "t1") "2401.00002").map Paper.status = some Status.NEW
    ∧ (get_paper (upsert_paper [sampleVideoPaper] "2401.00002" "2026-01" none
        none none none none none none none none (some Status.PDF_OK) none
        "t2") "2401.00002").map Paper.status = some Status.PDF_OK :=
  C5_status_overwritten_unconditionally [sampleVideoPaper] "2401.00002"
    "2026-01" Status.NEW Status.PDF_OK none false "t1" none none none none
    none none none none none none "t2" sampleVideoPaper rfl

-- ===========================================================================
-- C1: upsert insert/update semantics (corrected: week_id is not updated)
-- ===========================================================================

/-- C1 counterexample: `week_id` is supplied as a non-`None` required
argument, yet `upsert_paper` on an existing `paper_id` does not update it:
upserting the stored sample row with week `"2026-07"` leaves its stored
week `"2026-01"`, refuting "updates exactly the fields supplied as
non-None plus `updated_at`" as stated. -/
theorem C1_counterexample :
    samplePaper.week_id = "2026-01"
    ∧ (get_paper (upsert_paper [samplePaper] "2401.00001" "2026-07" none none
        none none none none none none none none none "t1")
        "2401.00001").map Paper.week_id ≠ some "2026-07" := by
  exact ⟨rfl, by decide⟩

/-- C1 amended: upserting a nonexistent `paper_id` inserts a row with
status NEW (when no status is supplied) and `retry_count` 0; upserting an
existing `paper_id` updates exactly the optional fields supplied as
non-`None` plus `updated_at` — `week_id`, though a required argument, is
not written on the update path, and `retry_count` is untouched — and every
optional field supplied as `None` keeps its prior stored value. -/
theorem C1_upsert_partial_semantics (db : DB) (pid wid : String)
    (t h u pp sha nb vp sl su : Option String) (st : Option Status)
    (le2 : Option String) (now : String) (old : Paper) :
    (get_paper db pid = none →
      get_paper (upsert_paper db pid wid t h u pp sha nb vp sl su st le2 now)
          pid
        = some { paper_id := pid, week_id := wid, title := t, hf_url := h,
                 pdf_url := u, pdf_path := pp, pdf_sha256 := sha,
                 notebooklm_note_name := nb, video_path := vp,
                 slides_path := sl, summary := su,
                 status := st.getD Status.NEW, retry_count := 0,
                 last_error := le2, updated_at := some now })
    ∧ (get_paper db pid = some old →
      get_paper (upsert_paper db pid wid t h u pp sha nb vp sl su st le2 now)
          pid
        = some { paper_id := old.paper_id, week_id := old.week_id,
                 title := pick t old.title, hf_url := pick h old.hf_url,
                 pdf_url := pick u old.pdf_url,
                 pdf_path := pick pp old.pdf_path,
                 pdf_sha256 := pick sha old.pdf_sha256,
                 notebooklm_note_name := pick nb old.notebooklm_note_name,
                 video_path := pick vp old.video_path,
                 slides_path := pick sl old.slides_path,
                 summary := pick su old.summary,
                 status := st.getD old.status, retry_count := old.retry_count,
                 last_error := pick le2 old.last_error,
                 updated_at := some now }) := by
  constructor
  · intro hnone
    exact get_paper_upsert_new db pid wid t h u pp sha nb vp sl su st le2
      now hnone
  · intro hold
    rw [get_paper_upsert_existing db pid wid t h u pp sha nb vp sl su st le2
      now old hold]
    rfl

theorem C1_witness :
    get_paper (upsert_paper [] "2401.00009" "2026-02" (some "T") none none
        none none none none none none none none "t0") "2401.00009"
      = some { paper_id := "2401.00009", week_id := "2026-02",
               title := some "T", status := Status.NEW, retry_count := 0,
               updated_at := some "t0" }
    ∧ get_paper (upsert_paper [samplePaper] "2401.00001" "2026-01" none none
        none (some "/pdf/x.pdf") none none none none none none none "t1")
        "2401.00001"
      = some { samplePaper with
                 pdf_path := some "/pdf/x.pdf", updated_at := some "t1" } := by
  constructor
  · have hc := (C1_upsert_partial_semantics [] "2401.00009" "2026-02"
      (some "T") none none none none none none none none none none "t0"
      samplePaper).1 rfl
    simpa using hc
  · have hc := (C1_upsert_partial_semantics [samplePaper] "2401.00001"
      "2026-01" none none none (some "/pdf/x.pdf") none none none none none
      none none "t1" samplePaper).2 rfl
    simpa [samplePaper, pick] using hc

-- ===========================================================================
-- The processing query: membership characterization
-- ===========================================================================

theorem needed_contains_eq (T : Status) (hT : T ∈ status_order) (s : Status) :
    (status_order.take (status_order.indexOf T)).contains s
      = statusPrecedes s T := by
  cases T <;> cases s <;> first | rfl | exact absurd hT (by decide)

theorem mem_processing_of_mem (db : DB) (w : String) (T : Status) (m : Nat)
    (limit : Option Nat) (p : Paper)
    (hp : p ∈ get_papers_for_processing db w T m limit) :
    p ∈ db ∧ week_clause_matches w p.week_id = true
    ∧ (status_order.take (status_order.indexOf T)).contains p.status = true
    ∧ p.retry_count < m := by
  unfold get_papers_for_processing at hp
  by_cases hT : T ∈ status_order
  · rw [if_pos hT] at hp
    have hp2 : p ∈ (db.filter (fun q =>
        week_clause_matches w q.week_id &&
        ((status_order.take (status_order.indexOf T)).contains q.status) &&
        decide (q.retry_count < m))).mergeSort
          (fun a b => a.paper_id ≤ b.paper_id) := by
      cases limit with
      | none => exact hp
      | some n =>
          dsimp only at hp
          by_cases hn : (n == 0) = true
          · rw [if_pos hn] at hp
            exact hp
          · rw [if_neg hn] at hp
            exact List.mem_of_mem_take hp
    rw [List.mem_mergeSort, List.mem_filter] at hp2
    obtain ⟨hmem, hpred⟩ := hp2
    simp only [Bool.and_eq_true, decide_eq_true_eq] at hpred
    exact ⟨hmem, hpred.1.1, hpred.1.2, hpred.2⟩
  · rw [if_neg hT] at hp
    cases hp

-- ===========================================================================
-- C2: the processing query returns exactly the eligible rows, sorted
-- ===========================================================================

/-- C2: for every week identifier, ladder target status and retry bound,
`get_papers_for_processing` returns exactly (as a permutation of the
filtered table, hence with multiplicity) the stored records matching the
period whose status strictly precedes the target in the ladder NEW,
PDF_OK, NBLM_OK, VIDEO_OK and whose `retry_count` is strictly below the
bound, ordered by `paper_id` ascending. With target PDF_OK the precedence
condition holds only for NEW, and with bound 3 every record whose
`retry_count` has reached 3 fails the filter. -/
theorem C2_processing_query (db : DB) (w : String) (T : Status) (m : Nat)
    (hT : T ∈ status_order) :
    (get_papers_for_processing db w T m none).Perm
      (db.filter (fun p => week_clause_matches w p.week_id &&
         statusPrecedes p.status T && decide (p.retry_count < m)))
    ∧ List.Sorted (fun a b : Paper => a.paper_id ≤ b.paper_id)
        (get_papers_for_processing db w T m none) := by
  have hfun : (fun p : Paper => week_clause_matches w p.week_id &&
      ((status_order.take (status_order.indexOf T)).contains p.status) &&
      decide (p.retry_count < m))
      = (fun p : Paper => week_clause_matches w p.week_id &&
        statusPrecedes p.status T && decide (p.retry_count < m)) := by
    funext p
    rw [needed_contains_eq T hT p.status]
  have hdef : get_papers_for_processing db w T m none
      = (db.filter (fun p => week_clause_matches w p.week_id &&
          ((status_order.take (status_order.indexOf T)).contains p.status) &&
          decide (p.retry_count < m))).mergeSort
            (fun a b => a.paper_id ≤ b.paper_id) := by
    unfold get_papers_for_processing
    rw [if_pos hT]
  constructor
  · rw [hdef, hfun]
    exact List.mergeSort_perm _ _
  · rw [hdef]
    refine List.Pairwise.imp ?_ (List.sorted_mergeSort ?_ ?_ _)
    · intro a b hab
      exact of_decide_eq_true hab
    · intro a b c hab hbc
      simp only [decide_eq_true_eq] at hab hbc ⊢
      exact le_trans hab hbc
    · intro a b
      simp only [Bool.or_eq_true, decide_eq_true_eq]
      exact le_total a.paper_id b.paper_id

theorem C2_witness :
    (get_papers_for_processing [samplePaper, sampleVideoPaper] "2026-01"
        Status.PDF_OK 3 none).Perm
      ([samplePaper, sampleVideoPaper].filter (fun p =>
         week_clause_matches "2026-01" p.week_id &&
         statusPrecedes p.status Status.PDF_OK && decide (p.retry_count < 3)))
    ∧ List.Sorted (fun a b : Paper => a.paper_id ≤ b.paper_id)
        (get_papers_for_processing [samplePaper, sampleVideoPaper] "2026-01"
          Status.PDF_OK 3 none) :=
  C2_processing_query [samplePaper, sampleVideoPaper] "2026-01"
    Status.PDF_OK 3 (by decide)

-- ===========================================================================
-- C3: ERROR rows are never eligible for processing (corrected)
-- ===========================================================================

/-- C3 counterexample: a stored record with status ERROR and retry_count 0
(below the bound 3) is returned by `get_papers_for_processing` for no
target status at all — ERROR is not retried via the processing query. -/
theorem C3_counterexample :
    sampleErrorPaper.status = Status.ERROR
    ∧ sampleErrorPaper.retry_count < 3
    ∧ get_papers_for_processing [sampleErrorPaper] "2026-01" Status.NEW 3
        none = []
    ∧ get_papers_for_processing [sampleErrorPaper] "2026-01" Status.PDF_OK 3
        none = []
    ∧ get_papers_for_processing [sampleErrorPaper] "2026-01" Status.NBLM_OK 3
        none = []
    ∧ get_papers_for_processing [sampleErrorPaper] "2026-01" Status.VIDEO_OK
        3 none = []
    ∧ get_papers_for_processing [sampleErrorPaper] "2026-01" Status.ERROR 3
        none = [] := by
  have key : ∀ T : Status,
      get_papers_for_processing [sampleErrorPaper] "2026-01" T 3 none = [] := by
    intro T
    rw [List.eq_nil_iff_forall_not_mem]
    intro p hp
    obtain ⟨hmem, -, hcont, -⟩ := mem_processing_of_mem _ _ _ _ _ _ hp
    have hpe : p = sampleErrorPaper := by simpa using hmem
    rw [hpe] at hcont
    revert hcont
    cases T <;> decide
  exact ⟨rfl, by decide, key _, key _, key _, key _, key _⟩

/-- C3 amended: a record whose status is ERROR is excluded from
`get_papers_for_processing` for every target status and period, whatever
its `retry_count`; likewise a record whose `retry_count` has reached the
bound. Excluded records stay in the store: the processing query is a pure
read, and a failure-recording `update_status` keeps the table's row count
unchanged (quarantined, never deleted). -/
theorem C3_error_or_exhausted_excluded (db : DB) (w : String) (T : Status)
    (m : Nat) (limit : Option Nat) (p : Paper) (pid : String) (s2 : Status)
    (e2 : Option String) (inc : Bool) (now : String)
    (hp : p.status = Status.ERROR ∨ m ≤ p.retry_count) :
    p ∉ get_papers_for_processing db w T m limit
    ∧ (update_status db pid s2 e2 inc now).length = db.length := by
  constructor
  · intro hmem
    obtain ⟨-, -, hcont, hretry⟩ := mem_processing_of_mem db w T m limit p
      hmem
    cases hp with
    | inl herr =>
        rw [herr] at hcont
        revert hcont
        cases T <;> decide
    | inr hge =>
        exact absurd hretry (not_lt.mpr hge)
  · exact List.length_map db _

theorem C3_witness :
    sampleErrorPaper ∉ get_papers_for_processing [sampleErrorPaper]
      "2026-01" Status.PDF_OK 3 none
    ∧ (update_status [sampleErrorPaper] "2401.00003" Status.ERROR
        (some "stage failed") true "t1").length = 1 :=
  C3_error_or_exhausted_excluded [sampleErrorPaper] "2026-01" Status.PDF_OK
    3 none sampleErrorPaper "2401.00003" Status.ERROR (some "stage failed")
    true "t1" (Or.inl rfl)

-- ===========================================================================
-- C4: week-shaped identifiers match the week label and its seven days
-- ===========================================================================

theorem weekFormatChars_length (cs : List Char)
    (h : weekFormatChars cs = true) : cs.length = 7 := by
  unfold weekFormatChars at h
  split at h
  · simp_all
  · exact absurd h (by simp)

theorem dateFormatChars_length (cs : List Char)
    (h : dateFormatChars cs = true) : cs.length = 10 := by
  unfold dateFormatChars at h
  split at h
  · simp_all
  · exact absurd h (by simp)

theorem dates_of_week_3_2026 :
    get_dates_for_week "2026-03"
      = ["2026-01-12", "2026-01-13", "2026-01-14", "2026-01-15",
         "2026-01-16", "2026-01-17", "2026-01-18"] := by
  decide

/-- C4: the period clause built for `"2026-03"` matches a stored period
exactly when it equals `"2026-03"` or one of the seven calendar-date
strings (Monday to Sunday) of ISO week 3 of 2026, and a date-shaped
identifier matches only a stored period equal to it exactly. -/
theorem C4_week_clause_matching (stored id : String)
    (hd : isDateShaped id = true) :
    (week_clause_matches "2026-03" stored = true ↔
      (stored = "2026-03" ∨
        stored ∈ (["2026-01-12", "2026-01-13", "2026-01-14", "2026-01-15",
          "2026-01-16", "2026-01-17", "2026-01-18"] : List String)))
    ∧ (week_clause_matches id stored = true ↔ stored = id) := by
  constructor
  · have hwk : is_week_format "2026-03" = true := by decide
    unfold week_clause_matches
    rw [if_pos hwk, dates_of_week_3_2026]
    simp [List.contains, List.elem_iff]
  · have h10 : id.toList.length = 10 := dateFormatChars_length _ hd
    have hwf : is_week_format id = false := by
      cases hb : is_week_format id with
      | false => rfl
      | true =>
          have h7 := weekFormatChars_length id.toList hb
          exact absurd (h7.symm.trans h10) (by decide)
    unfold week_clause_matches
    rw [if_neg (by simp [hwf])]
    simp

theorem C4_witness :
    (week_clause_matches "2026-03" "2026-01-15" = true ↔
      ("2026-01-15" = "2026-03" ∨
        "2026-01-15" ∈ (["2026-01-12", "2026-01-13", "2026-01-14",
          "2026-01-15", "2026-01-16", "2026-01-17",
          "2026-01-18"] : List String)))
    ∧ (week_clause_matches "2026-01-15" "2026-01-15" = true ↔
        "2026-01-15" = "2026-01-15") :=
  C4_week_clause_matching "2026-01-15" "2026-01-15" (by decide)

-- ===========================================================================
-- C6: digest stats are the period's row counts
-- ===========================================================================

/-- C6: the digest's `stats.total` equals the number of stored records
matching the period and `stats.video_ok` the number of those with status
VIDEO_OK (for any truthy, i.e. non-empty, period identifier). -/
theorem C6_digest_stats_counts (db : DB) (w : String) (hw : w ≠ "") :
    (digest_stats db w).total
      = (db.filter (fun p => week_clause_matches w p.week_id)).length
    ∧ (digest_stats db w).video_ok
      = (db.filter (fun p => week_clause_matches w p.week_id &&
          p.status == Status.VIDEO_OK)).length := by
  have hw2 : (w == "") = false := by simpa using hw
  constructor <;> simp [digest_stats, count_papers, count_filter, hw2]

theorem C6_witness :
    (digest_stats [samplePaper, sampleVideoPaper] "2026-01").total
      = ([samplePaper, sampleVideoPaper].filter (fun p =>
          week_clause_matches "2026-01" p.week_id)).length
    ∧ (digest_stats [samplePaper, sampleVideoPaper] "2026-01").video_ok
      = ([samplePaper, sampleVideoPaper].filter (fun p =>
          week_clause_matches "2026-01" p.week_id &&
          p.status == Status.VIDEO_OK)).length :=
  C6_digest_stats_counts [samplePaper, sampleVideoPaper] "2026-01"
    (by decide)

-- ===========================================================================
-- C7: re-scraping does not duplicate or overwrite existing rows
-- ===========================================================================

theorem fetch_loop_preserves_row (w now : String) (mp : Option Nat)
    (scraped : List ScrapedPaper) (db : DB) (seen : List String)
    (count : Nat) (pid : String) (old : Paper)
    (hold : get_paper db pid = some old) :
    get_paper (fetch_loop w now mp db seen count scraped).1 pid = some old := by
  induction scraped generalizing db seen count with
  | nil => exact hold
  | cons sp rest ih =>
      unfold fetch_loop
      by_cases hseen : seen.contains sp.paper_id = true
      · rw [if_pos hseen]
        exact ih db seen count hold
      · rw [if_neg hseen]
        cases hx : get_paper db sp.paper_id with
        | some q => exact ih db _ _ hold
        | none =>
            dsimp only
            have hrow : get_paper (upsert_paper db sp.paper_id w
                (some sp.title) (some sp.hf_url) (some sp.pdf_url) none none
                none none none none none none now) pid = some old := by
              rw [upsert_new_eq_append db sp.paper_id w (some sp.title)
                (some sp.hf_url) (some sp.pdf_url) none none none none none
                none none none now hx]
              exact get_paper_append_of_some db _ pid old hold
            by_cases hstop :
                (natTruthy mp && decide (mp.getD 0 ≤ count + 1)) = true
            · rw [if_pos hstop]
              exact hrow
            · rw [if_neg hstop]
              exact ih _ _ _ hrow

theorem fetch_loop_preserves_unique (w now : String) (mp : Option Nat)
    (scraped : List ScrapedPaper) (db : DB) (seen : List String)
    (count : Nat) (hu : keysUnique db) :
    keysUnique (fetch_loop w now mp db seen count scraped).1 := by
  induction scraped generalizing db seen count with
  | nil => exact hu
  | cons sp rest ih =>
      unfold fetch_loop
      by_cases hseen : seen.contains sp.paper_id = true
      · rw [if_pos hseen]
        exact ih db seen count hu
      · rw [if_neg hseen]
        cases hx : get_paper db sp.paper_id with
        | some q => exact ih db _ _ hu
        | none =>
            dsimp only
            have hu2 : keysUnique (upsert_paper db sp.paper_id w
                (some sp.title) (some sp.hf_url) (some sp.pdf_url) none none
                none none none none none none now) := by
              rw [upsert_new_eq_append db sp.paper_id w (some sp.title)
                (some sp.hf_url) (some sp.pdf_url) none none none none none
                none none none now hx]
              unfold keysUnique at hu ⊢
              rw [List.pairwise_append]
              refine ⟨hu, by simp, ?_⟩
              intro a ha b hb
              rw [List.mem_singleton] at hb
              subst hb
              have hne := List.find?_eq_none.mp hx a ha
              simpa using hne
            by_cases hstop :
                (natTruthy mp && decide (mp.getD 0 ≤ count + 1)) = true
            · rw [if_pos hstop]
              exact hu2
            · rw [if_neg hstop]
              exact ih _ _ _ hu2

/-- C7: when a scraped `paper_id` is already stored,
`fetch_weekly_papers` performs no write for it: the existing row keeps
every field unchanged, and the table keeps pairwise-distinct identifiers
(no second row is created for any identifier). -/
theorem C7_rescrape_idempotent (db : DB) (w now : String)
    (scraped : List ScrapedPaper) (mp : Option Nat) (pid : String)
    (old : Paper) (hold : get_paper db pid = some old)
    (hu : keysUnique db) :
    get_paper (fetch_weekly_papers_db db w scraped mp now) pid = some old
    ∧ keysUnique (fetch_weekly_papers_db db w scraped mp now) :=
  ⟨fetch_loop_preserves_row w now mp scraped db [] 0 pid old hold,
   fetch_loop_preserves_unique w now mp scraped db [] 0 hu⟩

/-- A scraper stub whose identifier is already stored. -/
def sampleScraped : ScrapedPaper :=
  { paper_id := "2401.00001", title := "Sample Paper",
    hf_url := "https://huggingface.co/papers/2401.00001",
    pdf_url := "https://arxiv.org/pdf/2401.00001" }

/-- A scraper stub whose identifier is not yet stored. -/
def sampleScrapedNew : ScrapedPaper :=
  { paper_id := "2401.00777", title := "Fresh Paper",
    hf_url := "https://huggingface.co/papers/2401.00777",
    pdf_url := "https://arxiv.org/pdf/2401.00777" }

theorem C7_witness :
    get_paper (fetch_weekly_papers_db [samplePaper] "2026-01"
        [sampleScraped, sampleScrapedNew] none "t1") "2401.00001"
      = some samplePaper
    ∧ keysUnique (fetch_weekly_papers_db [samplePaper] "2026-01"
        [sampleScraped, sampleScrapedNew] none "t1") :=
  C7_rescrape_idempotent [samplePaper] "2026-01" "t1"
    [sampleScraped, sampleScrapedNew] none "2401.00001" samplePaper rfl
    (by simp [keysUnique])

end APD
